import Mathlib

/-!
Verification of the stream-availability resolution pipeline of
Stremio-Seerr-Catalog (src/src/services/tmdb.js — Stremio service section,
src/src/services/streamChecker.js, and the database helpers).

Strings are modelled as Lean `String` (a wrapper over `List Char`); machine
work happens on `.data`.  JavaScript truthiness of nullable string fields
(null / undefined / "" are falsy) is modelled by `jsTruthy` on
`Option String`.  All definitions are executable.
-/

namespace SeerrCatalog

/-- JavaScript truthiness of a nullable string: null/undefined and the
empty string are falsy. -/
def jsTruthy : Option String → Bool
  | none => false
  | some s => !s.isEmpty

/-- JavaScript truthiness of a nullable number (`media.tmdb_id`): null and
0 are falsy. -/
def natTruthy : Option Nat → Bool
  | none => false
  | some n => n != 0

/-- JavaScript regex `\w`: ASCII letters, digits, underscore. -/
def isWordChar (c : Char) : Bool :=
  c.isAlpha || c.isDigit || c = '_'

/-- Case-insensitive (ASCII, as the JS `i` flag on these ASCII patterns)
prefix test: does `tok` occur at the head of `s`, ignoring case? -/
def ciStartsWith : List Char → List Char → Bool
  | [], _ => true
  | _ :: _, [] => false
  | t :: ts, c :: cs => (c.toLower == t.toLower) && ciStartsWith ts cs

/-- Regex `\b` to the right of a match that ends in a word character:
holds at end of input or before a non-word character. -/
def rightBoundary : List Char → Bool
  | [] => true
  | c :: _ => !isWordChar c

/-- JS `s.split('\n')[0]`: the longest prefix without a newline. -/
def firstLineJS (s : String) : String :=
  String.mk (s.data.takeWhile (fun c => c != '\n'))

/-- JS `.toUpperCase()` on the ASCII inputs at hand: upper-case each
character.  (Defined on the character list so that it evaluates in the
kernel; `String.toUpper` is the same map.) -/
def upperStr (s : String) : String :=
  String.mk (s.data.map Char.toUpper)

/-- Whitespace as trimmed by JS `.trim()` (ASCII portion). -/
def isTrimChar (c : Char) : Bool :=
  c = ' ' || c = '\t' || c = '\n' || c = '\r'

/-- JS `.trim()`: drop whitespace from both ends. -/
def trimStr (s : String) : String :=
  String.mk (((s.data.dropWhile isTrimChar).reverse.dropWhile isTrimChar).reverse)

/-- Consume input up to and beyond the first `'>'`; `none` when no `'>'`
remains (then no further tag match is possible anywhere). -/
def dropThroughGt : List Char → Option (List Char)
  | [] => none
  | c :: cs => if c = '>' then some cs else dropThroughGt cs

/-- Fuel-indexed worker for `stripTags`; the fuel (initialised to the
input length) only makes the recursion structural, it is never exhausted. -/
def stripTagsGo : Nat → List Char → List Char
  | 0, s => s
  | _ + 1, [] => []
  | fuel + 1, c :: cs =>
    if c = '<' then
      match dropThroughGt cs with
      | some rest => ' ' :: stripTagsGo fuel rest
      | none => c :: cs
    else c :: stripTagsGo fuel cs

/-- JS `str.replace(/<[^>]*>/g, ' ')`: every maximal `<...>` region
(from a `'<'` to the first following `'>'`) becomes one space; a `'<'`
never followed by `'>'` is kept verbatim. -/
def stripTags (s : List Char) : List Char :=
  stripTagsGo s.length s

/-- JS `displayName.replace(/<[^>]*>/g, ' ').trim()` (tmdb.js, stream
detail mapping inside checkStreamsWithUserAddons). -/
def cleanName (s : String) : String :=
  trimStr (String.mk (stripTags s.data))

/-- The alternation of the quality regex in `extractQuality` (tmdb.js):
`\b(4K|2160p|1080p|720p|480p|HDR|DV|Dolby Vision)\b/i`, in pattern order. -/
def qualityTokens : List String :=
  ["4K", "2160p", "1080p", "720p", "480p", "HDR", "DV", "Dolby Vision"]

/-- Does token `t` match at the head of `s` (case-insensitively) with the
regex's closing `\b` satisfied?  Every token ends in a word character, so
the right `\b` holds exactly when the next character is absent or
non-word. -/
def tokenMatchHere (t : String) (s : List Char) : Bool :=
  ciStartsWith t.data s && rightBoundary (s.drop t.data.length)

/-- Leftmost-position, then pattern-order search of the quality regex.
`pw` records whether the character before the current position is a word
character (all tokens start with a word character, so the opening `\b`
holds exactly when `pw = false`). -/
def findQuality (pw : Bool) : List Char → Option String
  | [] => none
  | c :: cs =>
    if pw then findQuality (isWordChar c) cs
    else
      match qualityTokens.find? (fun t => tokenMatchHere t (c :: cs)) with
      | some t => some t
      | none => findQuality (isWordChar c) cs

/-- tmdb.js `extractQuality`: first `\b`-delimited case-insensitive match
of a quality token, upper-cased; empty string when absent.  (The JS code
upper-cases the matched slice; a slice that matches a token
case-insensitively has the same ASCII upper-case as the token itself, so
returning the token's upper-case is the same function.) -/
def extractQuality (name : String) : String :=
  match findQuality false name.data with
  | some t => upperStr t
  | none => ""

/-- JS `\s` on the ASCII range, as used by the size regex. -/
def isSpaceChar (c : Char) : Bool :=
  c = ' ' || c = '\t' || c = '\n' || c = '\r' || c = '\x0b' || c = '\x0c'

/-- One attempt of the size regex `\b(\d+(?:\.\d+)?\s*(?:GB|MB))\b/i` at
the current position (the opening `\b` has been checked by the caller).
Greedy sub-matches never need to backtrack here: a shorter `\d+` or `\s*`
leaves a digit or space where `G`/`M` is required. -/
def trySizeHere (s : List Char) : Option (List Char) :=
  let ds := s.takeWhile Char.isDigit
  let r1 := s.dropWhile Char.isDigit
  if ds.isEmpty then none
  else
    let fracAnd :=
      match r1 with
      | '.' :: t =>
        let fs := t.takeWhile Char.isDigit
        if fs.isEmpty then ([], r1) else ('.' :: fs, t.dropWhile Char.isDigit)
      | _ => ([], r1)
    let frac := fracAnd.1
    let r2 := fracAnd.2
    let ws := r2.takeWhile isSpaceChar
    let r3 := r2.dropWhile isSpaceChar
    match r3 with
    | c1 :: c2 :: rest =>
      if (c1.toLower = 'g' || c1.toLower = 'm') && c2.toLower = 'b'
          && rightBoundary rest then
        some (ds ++ frac ++ ws ++ [c1, c2])
      else none
    | _ => none

/-- Leftmost scan of the size regex; `pw` as in `findQuality` (the first
matched character is a digit, a word character). -/
def findSize (pw : Bool) : List Char → Option (List Char)
  | [] => none
  | c :: cs =>
    if pw then findSize (isWordChar c) cs
    else
      match trySizeHere (c :: cs) with
      | some m => some m
      | none => findSize (isWordChar c) cs

/-- tmdb.js `extractSize`: first `\b`-delimited match of
`\d+(\.\d+)?\s*(GB|MB)` (case-insensitive), returned verbatim; empty
string when absent. -/
def extractSize (name : String) : String :=
  match findSize false name.data with
  | some m => String.mk m
  | none => ""


/-- A raw stream object as returned by an addon's stream endpoint.  All
four fields are nullable free text; `filename` stands for
`behaviorHints.filename`. -/
structure RawStream where
  name : Option String
  title : Option String
  description : Option String
  filename : Option String
deriving DecidableEq, Repr

/-- One persisted evidence entry for a stream (tmdb.js, the object built
inside `streams.slice(0, 10).map`). -/
structure StreamEvidence where
  name : String
  title : String
  quality : String
  size : String
deriving DecidableEq, Repr

/-- Display-name extraction of `checkStreamsWithUserAddons` (tmdb.js):
priority `behaviorHints.filename` over first line of `description` over
first line of `title` over `name` over the literal "Unknown", each branch
chosen by JS truthiness of the raw field, then
`.replace(/<[^>]*>/g, ' ').trim()`. -/
def displayNameOf (s : RawStream) : String :=
  let dn :=
    if jsTruthy s.filename then s.filename.getD ""
    else if jsTruthy s.description then trimStr (firstLineJS (s.description.getD ""))
    else if jsTruthy s.title then trimStr (firstLineJS (s.title.getD ""))
    else if jsTruthy s.name then s.name.getD ""
    else "Unknown"
  cleanName dn

/-- The evidence object built per stream in `checkStreamsWithUserAddons`:
display name, raw title (or ""), quality extracted from
`displayName + ' ' + (s.name || '')`, size extracted from
`displayName + ' ' + (s.title || '') + ' ' + (s.description || '')`. -/
def classify (s : RawStream) : StreamEvidence :=
  { name := displayNameOf s
    title := s.title.getD ""
    quality := extractQuality (displayNameOf s ++ " " ++ s.name.getD "")
    size := extractSize (displayNameOf s ++ " " ++ s.title.getD "" ++ " " ++ s.description.getD "") }

/-- An addon descriptor as produced by `getInstalledAddons` (tmdb.js):
id, display name, transport URL, declared content types. -/
structure Addon where
  id : String
  name : String
  transportUrl : String
  types : List String
deriving DecidableEq, Repr

/-- Per-addon evidence pushed onto `checkedAddons`. -/
structure AddonEvidence where
  id : String
  name : String
  streamCount : Nat
  streams : List StreamEvidence
deriving DecidableEq, Repr

/-- Outcome of the HTTP GET against one addon's stream endpoint:
2xx with a parsed stream list (`data.streams || []`), a non-2xx status,
or a thrown error (timeout, transport failure, bad JSON). -/
inductive FetchResult where
  | ok (streams : List RawStream)
  | httpError (status : Nat)
  | netError (msg : String)
deriving DecidableEq, Repr

/-- The verdict object returned by `checkStreamsWithUserAddons`.  The
failure short-circuits carry a `reason` and no `addons` field; the full
path carries `addons` and no `reason`.  The `lastChecked` timestamp (wall
clock) is not modelled. -/
structure Verdict where
  available : Bool
  streamCount : Nat
  reason : Option String
  addons : Option (List AddonEvidence)
deriving DecidableEq, Repr

/-- A failure verdict `{available: false, streamCount: 0, reason}`. -/
def failVerdict (r : String) : Verdict :=
  { available := false, streamCount := 0, reason := some r, addons := none }

/-- The media item handed to the probe (type, external ids, title). -/
structure Media where
  type : String
  imdb_id : Option String
  tmdb_id : Option Nat
  title : String
deriving DecidableEq, Repr

/-- External collaborators of one probe cycle: the Cinemeta id lookup
(`getImdbIdFromTmdb`, null on any failure), the addon directory
(`getInstalledAddons`, which either throws or yields the stream-capable
addon list), and the per-URL stream fetch. -/
structure Env where
  cinemetaImdb : Option String
  addonsResult : Except String (List Addon)
  fetch : String → FetchResult

/-- Id resolution at the head of `checkStreamsWithUserAddons`:
`let imdbId = media.imdb_id; if (!imdbId && media.tmdb_id) imdbId = await
getImdbIdFromTmdb(...)`, normalised through the final `if (!imdbId)`
truthiness check (so the result is `none` exactly when the JS code takes
the "No IMDB ID" branch). -/
def resolveImdb (env : Env) (media : Media) : Option String :=
  let i := if !jsTruthy media.imdb_id && natTruthy media.tmdb_id
           then env.cinemetaImdb else media.imdb_id
  match i with
  | some s => if s.isEmpty then none else some s
  | none => none

/-- `media.type === 'movie' ? 'movie' : 'series'`. -/
def mediaTy (media : Media) : String :=
  if media.type = "movie" then "movie" else "series"

/-- The stream lookup key: `imdbId:1:1` for series, bare id for movies. -/
def streamIdFor (ty imdbId : String) : String :=
  if ty = "series" then imdbId ++ ":1:1" else imdbId

/-- `transportUrl` with a trailing `/manifest.json` removed when present
(`baseUrl.endsWith('/manifest.json')` then `slice(0, -len)`). -/
def baseUrlOf (transportUrl : String) : String :=
  let suf := "/manifest.json"
  if suf.data.isSuffixOf transportUrl.data then
    String.mk (transportUrl.data.take (transportUrl.data.length - suf.data.length))
  else transportUrl

/-- The stream endpoint URL
`baseUrl + '/stream/' + type + '/' + streamId + '.json'`. -/
def streamUrlOf (a : Addon) (ty imdbId : String) : String :=
  baseUrlOf a.transportUrl ++ "/stream/" ++ ty ++ "/" ++ streamIdFor ty imdbId ++ ".json"

/-- One iteration of the addon loop: `none` when the addon is skipped (it
does not declare the item's type, the fetch fails, a non-2xx status comes
back, or the stream list is empty), otherwise the stream count added to
`totalStreams` together with the evidence entry pushed onto
`checkedAddons` (evidence is built from the first 10 streams). -/
def addonContribution (env : Env) (ty imdbId : String) (a : Addon) :
    Option (Nat × AddonEvidence) :=
  if !(a.types.contains ty) then none
  else
    match env.fetch (streamUrlOf a ty imdbId) with
    | .ok streams =>
      if streams.length > 0 then
        some (streams.length,
          { id := a.id, name := a.name, streamCount := streams.length,
            streams := (streams.take 10).map classify })
      else none
    | .httpError _ => none
    | .netError _ => none

/-- The addon loop of `checkStreamsWithUserAddons`: accumulates
`totalStreams` and `checkedAddons` over the (already selected) addon
list, in order. -/
def probeLoop (env : Env) (ty imdbId : String) : List Addon → Nat × List AddonEvidence
  | [] => (0, [])
  | a :: rest =>
    let r := probeLoop env ty imdbId rest
    match addonContribution env ty imdbId a with
    | some p => (p.1 + r.1, p.2 :: r.2)
    | none => r

/-- `if (selectedAddonIds && selectedAddonIds.length > 0) addons =
addons.filter(a => selectedAddonIds.includes(a.id))`. -/
def applySelection (sel : Option (List String)) (addons : List Addon) : List Addon :=
  match sel with
  | some ids => if ids.length > 0 then addons.filter (fun a => ids.contains a.id) else addons
  | none => addons

/-- tmdb.js `checkStreamsWithUserAddons` (Stremio service section): id
resolution, addon listing with its three failure short-circuits, addon
selection, the sequential addon loop, and the final verdict
`{available: totalStreams > 0, streamCount: totalStreams, addons:
checkedAddons}`. -/
def checkStreamsWithUserAddons (env : Env) (media : Media)
    (selectedAddonIds : Option (List String)) : Verdict :=
  match resolveImdb env media with
  | none => failVerdict "No IMDB ID"
  | some imdbId =>
    match env.addonsResult with
    | .error m => failVerdict ("Failed to get addons: " ++ m)
    | .ok addons =>
      if addons.isEmpty then failVerdict "No stream addons installed"
      else
        let selected := applySelection selectedAddonIds addons
        let r := probeLoop env (mediaTy media) imdbId selected
        { available := decide (0 < r.1), streamCount := r.1,
          reason := none, addons := some r.2 }

/-- The media owner as read by `checkStreamsAvailable` (streamChecker.js):
only the Stremio credential matters here. -/
structure User where
  id : Nat
  stremio_auth_key : Option String
deriving DecidableEq, Repr

/-- streamChecker.js `checkStreamsAvailable`: the credential guard
(`if (!user || !user.stremio_auth_key)` returns the "Owner has no Stremio
auth key configured" verdict), then delegation to
`checkStreamsWithUserAddons`.  The IMDB backfill from TMDB and the
settings reads are collaborator I/O reflected in `media`/`env`/`sel`;
note that the filter preferences built here are passed as a fourth
argument which the three-parameter `checkStreamsWithUserAddons` under
src/ ignores. -/
def checkStreamsAvailable (user : Option User) (env : Env) (media : Media)
    (sel : Option (List String)) : Verdict :=
  match user with
  | none => failVerdict "Owner has no Stremio auth key configured"
  | some u =>
    if !jsTruthy u.stremio_auth_key then
      failVerdict "Owner has no Stremio auth key configured"
    else checkStreamsWithUserAddons env media sel

/-- The availability columns of one `media` row. -/
structure MediaRow where
  streams_available : Bool
  stream_count : Nat
  last_stream_check : Option String
  streams_detail : Option (List AddonEvidence)
deriving DecidableEq, Repr

/-- db.js `updateStreamStatus`: overwrite the four availability columns
(`available ? 1 : 0`, count, timestamp, `details ? JSON.stringify(details)
: null` — a JS array, even empty, is truthy and is stored). -/
def updateStreamStatus (row : MediaRow) (available : Bool) (streamCount : Nat)
    (lastChecked : String) (details : Option (List AddonEvidence)) : MediaRow :=
  { row with
    streams_available := available
    stream_count := streamCount
    last_stream_check := some lastChecked
    streams_detail := details }

/-- The recording call site (streamChecker.js):
`db.updateStreamStatus(media.id, result.available, result.streamCount,
result.lastChecked, result.addons)`. -/
def recordVerdict (row : MediaRow) (v : Verdict) (lastChecked : String) : MediaRow :=
  updateStreamStatus row v.available v.streamCount lastChecked v.addons


/-- The columns of one unavailable-media row that drive the recheck loop
(streamChecker.js `recheckUnavailableMedia`).  `last_stream_check` is
modelled as milliseconds since the epoch (the JS code parses the stored
ISO string with `new Date(...).getTime()`). -/
structure DbMedia where
  id : Nat
  streams_available : Bool
  last_stream_check : Option Nat
deriving DecidableEq, Repr

/-- streamChecker.js `RECHECK_INTERVAL = 24 * 60 * 60 * 1000`. -/
def RECHECK_INTERVAL : Nat := 24 * 60 * 60 * 1000

/-- The skip test of the recheck loop: an item is skipped when it carries
a `last_stream_check` and `now - lastCheck < RECHECK_INTERVAL`.  (With a
future timestamp JS compares a negative number, Nat subtraction yields 0;
both sides skip.) -/
def shouldSkip (now : Nat) (m : DbMedia) : Bool :=
  match m.last_stream_check with
  | some t => decide (now - t < RECHECK_INTERVAL)
  | none => false

/-- db.js `getMediaByAvailability`: the rows whose `streams_available`
flag equals the argument.  (The SQL `ORDER BY added_at DESC` is modelled
as the ambient row order.) -/
def getMediaByAvailability (db : List DbMedia) (avail : Bool) : List DbMedia :=
  db.filter (fun m => m.streams_available == avail)

/-- The body of the `for` loop of `recheckUnavailableMedia`: walk the
unavailable rows in order; for each non-skipped row run the probe and
record `(media.id, result)` — the `db.updateStreamStatus` call.  The probe
(`checkStreamsAvailable(media, db)`) is abstracted as a function of the
row; the 1 s pacing delay is timing, not state. -/
def recheckUpdates (now : Nat) (probe : DbMedia → Verdict) :
    List DbMedia → List (Nat × Verdict)
  | [] => []
  | m :: rest =>
    if shouldSkip now m then recheckUpdates now probe rest
    else (m.id, probe m) :: recheckUpdates now probe rest

/-- streamChecker.js `recheckUnavailableMedia`: select the rows with
`streams_available = false`, then run the skip/probe/record loop;
returned is the ordered list of `(id, verdict)` recordings performed. -/
def recheckUnavailableMedia (db : List DbMedia) (now : Nat)
    (probe : DbMedia → Verdict) : List (Nat × Verdict) :=
  recheckUpdates now probe (getMediaByAvailability db false)

/-- Modelled from the spec: per-user `FilterPreferences` (language tags
and minimum resolution), the input of the Filter & Classification Layer.
The filter-applying variant of the probe is not present under src/ (the
caller in streamChecker.js builds and passes these preferences, but the
probe in src/ takes only three parameters). -/
structure FilterPreferences where
  languageTags : List String
  minResolution : Option String
deriving DecidableEq, Repr

/-- Modelled from the spec: the resolution order `480p < 720p < 1080p <
4K`.  Comparison is on the upper-cased tag, since extracted quality tags
are stored upper-cased; `2160p` is ranked with `4K` (same resolution),
which no claim depends on. -/
def resolutionRank (q : String) : Option Nat :=
  if upperStr q = "480P" then some 1
  else if upperStr q = "720P" then some 2
  else if upperStr q = "1080P" then some 3
  else if upperStr q = "4K" then some 4
  else if upperStr q = "2160P" then some 4
  else none

/-- Modelled from the spec: HDR/DV tags are "treated as meeting any
resolution bar" (the spelled-out Dolby Vision tag is treated with DV,
which no claim depends on). -/
def meetsAnyBar (q : String) : Bool :=
  upperStr q = "HDR" || upperStr q = "DV" || upperStr q = "DOLBY VISION"

/-- Modelled from the spec: a stream passes resolution filtering if its
extracted quality is ranked at or above the configured minimum, HDR/DV
pass any bar, and a stream with no rankable quality is excluded whenever
a minimum is configured; no configured minimum passes everything. -/
def passesResolution (q : String) (minRes : Option String) : Bool :=
  match minRes with
  | none => true
  | some m =>
    if meetsAnyBar q then true
    else
      match resolutionRank q, resolutionRank m with
      | some a, some b => decide (b ≤ a)
      | _, _ => false

/-- Does `needle` occur contiguously anywhere in `hay`? -/
def occursIn (needle : List Char) : List Char → Bool
  | [] => needle.isEmpty
  | c :: cs => needle.isPrefixOf (c :: cs) || occursIn needle cs

/-- Case-insensitive substring test (ASCII lowering on both sides). -/
def containsCI (hay needle : String) : Bool :=
  occursIn (needle.data.map Char.toLower) (hay.data.map Char.toLower)

/-- Modelled from the spec: a stream passes language filtering if any
configured tag occurs case-insensitively in the combined name/title text;
no configured tags pass everything. -/
def passesLanguage (ev : StreamEvidence) (tags : List String) : Bool :=
  tags.isEmpty || tags.any (fun t => containsCI (ev.name ++ " " ++ ev.title) t)

/-- Modelled from the spec: overall pass = resolution pass AND language
pass. -/
def passesFilters (ev : StreamEvidence) (p : FilterPreferences) : Bool :=
  passesResolution ev.quality p.minResolution && passesLanguage ev p.languageTags

/-- Modelled from the spec: the per-addon step of the filter-applying
probe — classify every returned stream, keep those passing the filters,
count an addon only when at least one stream survived, and record up to
10 surviving evidence entries. -/
def addonContributionFiltered (env : Env) (ty imdbId : String)
    (prefs : FilterPreferences) (a : Addon) : Option (Nat × AddonEvidence) :=
  if !(a.types.contains ty) then none
  else
    match env.fetch (streamUrlOf a ty imdbId) with
    | .ok streams =>
      let kept := (streams.map classify).filter (fun ev => passesFilters ev prefs)
      if kept.length > 0 then
        some (kept.length,
          { id := a.id, name := a.name, streamCount := kept.length,
            streams := kept.take 10 })
      else none
    | .httpError _ => none
    | .netError _ => none

/-- Modelled from the spec: the addon loop of the filter-applying probe. -/
def probeLoopFiltered (env : Env) (ty imdbId : String) (prefs : FilterPreferences) :
    List Addon → Nat × List AddonEvidence
  | [] => (0, [])
  | a :: rest =>
    let r := probeLoopFiltered env ty imdbId prefs rest
    match addonContributionFiltered env ty imdbId prefs a with
    | some p => (p.1 + r.1, p.2 :: r.2)
    | none => r

/-- Modelled from the spec: `probe(item, authCredential, selectedAddonIds?,
filters?)` — `checkStreamsWithUserAddons` with the Filter &
Classification Layer applied per stream; identical to the src/ probe in
every step except that streams are counted after filtering. -/
def checkStreamsWithUserAddonsFiltered (env : Env) (media : Media)
    (selectedAddonIds : Option (List String)) (prefs : FilterPreferences) : Verdict :=
  match resolveImdb env media with
  | none => failVerdict "No IMDB ID"
  | some imdbId =>
    match env.addonsResult with
    | .error m => failVerdict ("Failed to get addons: " ++ m)
    | .ok addons =>
      if addons.isEmpty then failVerdict "No stream addons installed"
      else
        let selected := applySelection selectedAddonIds addons
        let r := probeLoopFiltered env (mediaTy media) imdbId prefs selected
        { available := decide (0 < r.1), streamCount := r.1,
          reason := none, addons := some r.2 }


/-- Follows C3's words: "first line" as an independent recursion (cut at
the first newline), for comparison with the embedded `split('\\n')[0]`. -/
def firstLineAlt : List Char → List Char
  | [] => []
  | c :: cs => if c = '\n' then [] else c :: firstLineAlt cs

/-- A nullable string normalised to `none` when absent or empty — "first
non-empty source" selection. -/
def nonEmptyOpt : Option String → Option String
  | none => none
  | some s => if s.isEmpty then none else some s

/-- Follows C3's words: the display name is the first non-empty source in
the priority order filename hint, first line of description, first line
of title, name, literal "Unknown"; markup tags are stripped from the
chosen name. -/
def displayName_claim (st : RawStream) : String :=
  let fromDesc := (nonEmptyOpt st.description).map
    (fun d => trimStr (String.mk (firstLineAlt d.data)))
  let fromTitle := (nonEmptyOpt st.title).map
    (fun t => trimStr (String.mk (firstLineAlt t.data)))
  let chosen :=
    (((nonEmptyOpt st.filename).orElse (fun _ => fromDesc)).orElse
      (fun _ => fromTitle)).orElse (fun _ => nonEmptyOpt st.name)
  cleanName (chosen.getD "Unknown")

/-- Follows C4's words, literally: the first case-insensitive match of a
quality token found ANYWHERE in the text (no word-boundary requirement),
returned as the token; empty when no token occurs. -/
def findTokenAnywhere : List Char → Option String
  | [] => none
  | c :: cs =>
    match qualityTokens.find? (fun t => ciStartsWith t.data (c :: cs)) with
    | some t => some t
    | none => findTokenAnywhere cs

/-- Follows C4's words, literally (see `findTokenAnywhere`). -/
def extractQuality_claimed (s : String) : String :=
  (findTokenAnywhere s.data).getD ""

/-- Follows the amended C4: token `t` matches at position `i` when it
occurs there case-insensitively and is not immediately preceded or
followed by a letter, digit, or underscore. -/
def delimitedMatchAt (s : List Char) (i : Nat) (t : String) : Bool :=
  (i == 0 || !isWordChar (s.getD (i - 1) ' ')) && tokenMatchHere t (s.drop i)

/-- Follows the amended C4: positions scanned left to right, tokens in
pattern order at each position; the winning token is returned
upper-cased, the empty string when no delimited match exists. -/
def extractQuality_amended (s : String) : String :=
  match (List.range s.data.length).findSome?
      (fun i => qualityTokens.find? (fun t => delimitedMatchAt s.data i t)) with
  | some t => upperStr t
  | none => ""


/-- Indexed form of one position of the quality scan: `pw` is the
left-context flag for position 0, positions ≥ 1 read their left
neighbour from the list itself. -/
def dmAux (pw : Bool) (s : List Char) (i : Nat) (t : String) : Bool :=
  (if i = 0 then !pw else !isWordChar (s.getD (i - 1) ' ')) && tokenMatchHere t (s.drop i)

/-- A fetch outcome that the addon loop skips: thrown error or non-2xx. -/
def isFailure : FetchResult → Bool
  | .ok _ => false
  | .httpError _ => true
  | .netError _ => true

/-! ### Helper lemmas -/

/-- A counted addon always contributed at least one stream. -/
lemma addonContribution_pos {env : Env} {ty imdbId : String} {a : Addon}
    {p : Nat × AddonEvidence} (h : addonContribution env ty imdbId a = some p) :
    0 < p.1 ∧ p.2.streamCount = p.1 := by
  unfold addonContribution at h
  split at h
  · exact absurd h (by simp)
  · split at h
    · rename_i streams heq
      split at h
      · rename_i hpos
        cases h
        exact ⟨by simpa using hpos, rfl⟩
      · exact absurd h (by simp)
    · exact absurd h (by simp)
    · exact absurd h (by simp)

/-- The loop total is positive exactly when some addon was counted, and
every recorded evidence entry carries a positive stream count. -/
lemma probeLoop_inv (env : Env) (ty imdbId : String) :
    ∀ l : List Addon,
      (0 < (probeLoop env ty imdbId l).1 ↔ (probeLoop env ty imdbId l).2 ≠ []) ∧
      (∀ e ∈ (probeLoop env ty imdbId l).2, 0 < e.streamCount)
  | [] => by simp [probeLoop]
  | a :: rest => by
    have IH := probeLoop_inv env ty imdbId rest
    unfold probeLoop
    cases hc : addonContribution env ty imdbId a with
    | none => simpa using IH
    | some p =>
      have hp := addonContribution_pos hc
      constructor
      · simp only []
        constructor
        · intro _; simp
        · intro _; omega
      · intro e he
        simp only [List.mem_cons] at he
        rcases he with rfl | he
        · omega
        · exact IH.2 e he


/-- The recheck loop records exactly the non-skipped rows, in order. -/
lemma recheckUpdates_eq (now : Nat) (probe : DbMedia → Verdict) :
    ∀ l : List DbMedia,
      recheckUpdates now probe l =
        (l.filter (fun m => !shouldSkip now m)).map (fun m => (m.id, probe m))
  | [] => rfl
  | m :: rest => by
    unfold recheckUpdates
    by_cases h : shouldSkip now m
    · simp [h, recheckUpdates_eq now probe rest]
    · simp [h, recheckUpdates_eq now probe rest]

/-- One recheck pass, as selection followed by skip-filter followed by
one recording per surviving row. -/
lemma recheck_eq (db : List DbMedia) (now : Nat) (probe : DbMedia → Verdict) :
    recheckUnavailableMedia db now probe =
      (db.filter (fun m => m.streams_available == false && !shouldSkip now m)).map
        (fun m => (m.id, probe m)) := by
  unfold recheckUnavailableMedia getMediaByAvailability
  rw [recheckUpdates_eq, List.filter_filter]
  congr 1
  apply List.filter_congr
  intro m _
  exact Bool.and_comm _ _

/-- A found quality is one of the regex's tokens. -/
lemma findQuality_mem : ∀ (s : List Char) (pw : Bool) (t : String),
    findQuality pw s = some t → t ∈ qualityTokens
  | [], _, _, h => by simp [findQuality] at h
  | c :: cs, pw, t, h => by
    unfold findQuality at h
    by_cases hpw : pw
    · simp only [hpw, if_true] at h
      exact findQuality_mem cs (isWordChar c) t h
    · simp only [hpw, if_false] at h
      cases hf : qualityTokens.find? (fun t => tokenMatchHere t (c :: cs)) with
      | none => rw [hf] at h; exact findQuality_mem cs (isWordChar c) t h
      | some u =>
        rw [hf] at h
        cases h
        exact List.mem_of_find?_eq_some hf


lemma dmAux_zero (pw : Bool) (s : List Char) (t : String) :
    dmAux pw s 0 t = (!pw && tokenMatchHere t s) := by
  simp [dmAux]

lemma dmAux_succ (pw : Bool) (c : Char) (cs : List Char) (i : Nat) (t : String) :
    dmAux pw (c :: cs) (i + 1) t = dmAux (isWordChar c) cs i t := by
  cases i with
  | zero => simp [dmAux]
  | succ j => simp [dmAux]

/-- The recursive scan equals the indexed left-to-right search. -/
lemma findQuality_eq_indexed : ∀ (s : List Char) (pw : Bool),
    findQuality pw s =
      (List.range s.length).findSome?
        (fun i => qualityTokens.find? (fun t => dmAux pw s i t))
  | [], pw => by simp [findQuality]
  | c :: cs, pw => by
    have IH := findQuality_eq_indexed cs (isWordChar c)
    have hfun : ((fun i => qualityTokens.find? (fun t => dmAux pw (c :: cs) i t)) ∘ Nat.succ)
        = (fun i => qualityTokens.find? (fun t => dmAux (isWordChar c) cs i t)) := by
      funext i
      simp only [Function.comp_apply]
      congr 1
      funext t
      exact dmAux_succ pw c cs i t
    rw [List.length_cons, List.range_succ_eq_map, List.findSome?_cons,
      List.findSome?_map, hfun, ← IH]
    cases pw with
    | true =>
      have h0 : qualityTokens.find? (fun t => dmAux true (c :: cs) 0 t) = none := by
        apply List.find?_eq_none.mpr
        intro x _
        simp [dmAux_zero]
      rw [h0]
      simp [findQuality]
    | false =>
      have h0 : (fun t => dmAux false (c :: cs) 0 t)
          = (fun t => tokenMatchHere t (c :: cs)) := by
        funext t
        simp [dmAux_zero]
      rw [h0]
      conv_lhs => rw [findQuality]
      simp only [Bool.false_eq_true, if_false]
      cases hf : qualityTokens.find? (fun t => tokenMatchHere t (c :: cs)) <;> simp

lemma dmAux_false_eq_delimited (s : List Char) (i : Nat) (t : String) :
    dmAux false s i t = delimitedMatchAt s i t := by
  cases i with
  | zero => simp [dmAux, delimitedMatchAt]
  | succ j => simp [dmAux, delimitedMatchAt]


lemma firstLineAlt_eq (l : List Char) :
    firstLineAlt l = l.takeWhile (fun c => c != '\n') := by
  induction l with
  | nil => rfl
  | cons c cs IH =>
    by_cases h : c = '\n'
    · simp [firstLineAlt, h, List.takeWhile_cons]
    · simp [firstLineAlt, h, List.takeWhile_cons, IH]

lemma firstLineAlt_mk (x : String) :
    String.mk (firstLineAlt x.data) = firstLineJS x := by
  rw [firstLineAlt_eq]
  rfl

lemma nonEmptyOpt_eq_of_truthy {o : Option String} (h : jsTruthy o = true) :
    nonEmptyOpt o = some (o.getD "") := by
  cases o with
  | none => simp [jsTruthy] at h
  | some s =>
    simp only [jsTruthy, Bool.not_eq_true'] at h
    simp [nonEmptyOpt, h]

lemma nonEmptyOpt_eq_of_falsy {o : Option String} (h : jsTruthy o = false) :
    nonEmptyOpt o = none := by
  cases o with
  | none => rfl
  | some s =>
    simp only [jsTruthy, Bool.not_eq_false'] at h
    simp [nonEmptyOpt, h]

lemma baseUrlOf_append (pre : String) :
    baseUrlOf (pre ++ "/manifest.json") = pre := by
  have hsuf : "/manifest.json".data.isSuffixOf (pre ++ "/manifest.json").data = true := by
    rw [String.data_append]
    exact List.isSuffixOf_iff_suffix.mpr ⟨pre.data, rfl⟩
  unfold baseUrlOf
  show (if "/manifest.json".data.isSuffixOf (pre ++ "/manifest.json").data = true then
      String.mk ((pre ++ "/manifest.json").data.take
        ((pre ++ "/manifest.json").data.length - "/manifest.json".data.length))
    else pre ++ "/manifest.json") = pre
  split
  · apply String.ext
    show ((pre ++ "/manifest.json").data.take
        ((pre ++ "/manifest.json").data.length - "/manifest.json".data.length)) = pre.data
    rw [String.data_append, List.length_append, Nat.add_sub_cancel]
    exact List.take_left pre.data "/manifest.json".data
  · rename_i hcond
    exact absurd hsuf hcond

lemma baseUrlOf_no_suffix (u : String) (h : ¬ ∃ q : String, u = q ++ "/manifest.json") :
    baseUrlOf u = u := by
  unfold baseUrlOf
  show (if "/manifest.json".data.isSuffixOf u.data = true then
      String.mk (u.data.take (u.data.length - "/manifest.json".data.length))
    else u) = u
  split
  · rename_i hcond
    exfalso
    obtain ⟨t, ht⟩ := List.isSuffixOf_iff_suffix.mp hcond
    refine h ⟨String.mk t, String.ext ?_⟩
    rw [String.data_append]
    exact ht.symm
  · rfl

lemma filters_exclude_1080p_under_4K (prefs : FilterPreferences)
    (hmin : prefs.minResolution = some "4K") (ev : StreamEvidence)
    (hq : upperStr ev.quality = "1080P") : passesFilters ev prefs = false := by
  have hbar : meetsAnyBar ev.quality = false := by
    unfold meetsAnyBar
    rw [hq]
    decide
  have hrank : resolutionRank ev.quality = some 3 := by
    unfold resolutionRank
    rw [hq]
    decide
  have hres : passesResolution ev.quality (some "4K") = false := by
    simp only [passesResolution]
    rw [hbar, hrank]
    decide
  unfold passesFilters
  rw [hmin, hres]
  simp

/-! ### Claim theorems -/

/-- C8: each pass of the unavailable-item recheck selects exactly the
rows with `streamsAvailable = false`, skips (leaves unrecorded) every
selected row whose `lastStreamCheck` is more recent than the 24-hour
interval, and probes and records every remaining row sequentially, in
order: the recordings performed are exactly one `(id, verdict)` per
non-recent unavailable row. -/
theorem recheck_selects_unavailable_skips_recent (db : List DbMedia) (now : Nat)
    (probe : DbMedia → Verdict) :
    recheckUnavailableMedia db now probe =
      (db.filter (fun m => m.streams_available == false && !shouldSkip now m)).map
        (fun m => (m.id, probe m)) :=
  recheck_eq db now probe

/-- C10: an unavailable item that has never been checked
(`lastStreamCheck` null) is always probed by a recheck pass — the
24-hour skip rule only applies to rows carrying a timestamp. -/
theorem never_checked_always_probed (db : List DbMedia) (now : Nat)
    (probe : DbMedia → Verdict) (m : DbMedia) (hmem : m ∈ db)
    (havail : m.streams_available = false) (hnever : m.last_stream_check = none) :
    (m.id, probe m) ∈ recheckUnavailableMedia db now probe := by
  rw [recheck_eq]
  apply List.mem_map.mpr
  refine ⟨m, ?_, rfl⟩
  apply List.mem_filter.mpr
  refine ⟨hmem, ?_⟩
  simp [havail, shouldSkip, hnever]

/-- Witness for C10 at a concrete database. -/
theorem never_checked_always_probed_witness :
    ((1 : Nat), failVerdict "probe ran") ∈
      recheckUnavailableMedia
        [{ id := 1, streams_available := false, last_stream_check := none }]
        (10 ^ 12) (fun _ => failVerdict "probe ran") :=
  never_checked_always_probed
    [{ id := 1, streams_available := false, last_stream_check := none }]
    (10 ^ 12) (fun _ => failVerdict "probe ran")
    { id := 1, streams_available := false, last_stream_check := none }
    (by decide) (by decide) (by decide)

/-- C4 counterexample: `extractQuality` is not "the first
case-insensitive token match found anywhere, verbatim".  In "HDRip" the
token HDR occurs, yet the code extracts nothing (the match must be
word-boundary-delimited); in "x 1080p y" the token 1080p matches, yet
the code returns "1080P", not the token as found. -/
theorem extractQuality_counterexample :
    (extractQuality "HDRip" = "" ∧ extractQuality_claimed "HDRip" = "HDR") ∧
    (extractQuality "x 1080p y" = "1080P" ∧
      extractQuality_claimed "x 1080p y" = "1080p") := by
  decide

/-- C4 (amended): quality extraction returns the upper-cased first
case-insensitive match of one token from the set, where the match must
not be immediately preceded or followed by a letter, digit, or
underscore (the regex word boundaries); positions are scanned left to
right, tokens in pattern order; the empty string when no such delimited
match exists. -/
theorem extractQuality_amended_correct (s : String) :
    extractQuality s = extractQuality_amended s := by
  unfold extractQuality extractQuality_amended
  rw [findQuality_eq_indexed]
  have heq : (fun i => qualityTokens.find? (fun t => dmAux false s.data i t))
      = (fun i => qualityTokens.find? (fun t => delimitedMatchAt s.data i t)) := by
    funext i
    congr 1
    funext t
    exact dmAux_false_eq_delimited s.data i t
  rw [heq]

/-- C9: every extracted quality is either empty or the upper-cased form
of one of the tokens; in particular "1080p" in the input yields "1080P",
"Dolby Vision" yields "DOLBY VISION", and the extracted tag is never one
of the lower-case token spellings. -/
theorem extractQuality_uppercases (s : String) :
    (extractQuality s = "" ∨ ∃ t ∈ qualityTokens, extractQuality s = upperStr t) ∧
    extractQuality "x 1080p y" = "1080P" ∧
    extractQuality "Dolby Vision" = "DOLBY VISION" ∧
    (extractQuality s ≠ "2160p" ∧ extractQuality s ≠ "1080p" ∧
      extractQuality s ≠ "720p" ∧ extractQuality s ≠ "480p" ∧
      extractQuality s ≠ "Dolby Vision") := by
  have hmain : extractQuality s = "" ∨ ∃ t ∈ qualityTokens, extractQuality s = upperStr t := by
    unfold extractQuality
    cases hq : findQuality false s.data with
    | none => exact Or.inl rfl
    | some t => exact Or.inr ⟨t, findQuality_mem _ _ _ hq, rfl⟩
  refine ⟨hmain, by decide, by decide, ?_⟩
  rcases hmain with h | ⟨t, ht, h⟩
  · rw [h]
    exact ⟨by decide, by decide, by decide, by decide, by decide⟩
  · fin_cases ht <;> rw [h] <;>
      exact ⟨by decide, by decide, by decide, by decide, by decide⟩


/-- C3: the display name is chosen by the fixed priority "first
non-empty source wins": filename hint, else first line of description,
else first line of title, else name, else the literal "Unknown"; markup
tags are stripped from the chosen name (the code replaces each tag by a
space and trims). -/
theorem displayName_priority (st : RawStream) :
    displayNameOf st = displayName_claim st := by
  unfold displayNameOf displayName_claim
  cases hf : jsTruthy st.filename with
  | true =>
    rw [nonEmptyOpt_eq_of_truthy hf]
    simp [hf, Option.orElse]
  | false =>
    rw [nonEmptyOpt_eq_of_falsy hf]
    cases hd : jsTruthy st.description with
    | true =>
      rw [nonEmptyOpt_eq_of_truthy hd]
      simp [hf, hd, Option.orElse, firstLineAlt_mk]
    | false =>
      rw [nonEmptyOpt_eq_of_falsy hd]
      cases ht : jsTruthy st.title with
      | true =>
        rw [nonEmptyOpt_eq_of_truthy ht]
        simp [hf, hd, ht, Option.orElse, firstLineAlt_mk]
      | false =>
        rw [nonEmptyOpt_eq_of_falsy ht]
        cases hn : jsTruthy st.name with
        | true =>
          rw [nonEmptyOpt_eq_of_truthy hn]
          simp [hf, hd, ht, hn, Option.orElse]
        | false =>
          rw [nonEmptyOpt_eq_of_falsy hn]
          simp [hf, hd, ht, hn, Option.orElse]


/-- C2: for every verdict of one probe cycle, once recorded via
`updateStreamStatus`, `streamsAvailable = true`, `streamCount > 0` and a
non-empty `streamsDetail` are pairwise equivalent, and every recorded
evidence entry stems from an addon that contributed at least one stream
(its per-addon count is positive). -/
theorem availability_invariant (env : Env) (media : Media) (sel : Option (List String))
    (row : MediaRow) (ts : String) :
    ((recordVerdict row (checkStreamsWithUserAddons env media sel) ts).streams_available = true
        ↔ 0 < (recordVerdict row (checkStreamsWithUserAddons env media sel) ts).stream_count) ∧
    (0 < (recordVerdict row (checkStreamsWithUserAddons env media sel) ts).stream_count
        ↔ (recordVerdict row (checkStreamsWithUserAddons env media sel) ts).streams_detail.getD []
            ≠ []) ∧
    (∀ e ∈ (checkStreamsWithUserAddons env media sel).addons.getD [], 0 < e.streamCount) := by
  unfold recordVerdict updateStreamStatus checkStreamsWithUserAddons
  cases hres : resolveImdb env media with
  | none => simp [failVerdict]
  | some i =>
    cases haddons : env.addonsResult with
    | error m => simp [failVerdict]
    | ok addons =>
      cases addons with
      | nil => simp [failVerdict]
      | cons a rest =>
        have hinv := probeLoop_inv env (mediaTy media) i (applySelection sel (a :: rest))
        simp only [List.isEmpty_cons, Bool.false_eq_true, if_false, Option.getD_some]
        refine ⟨by simp, ?_, ?_⟩
        · simpa using hinv.1
        · simpa using hinv.2


/-- C6: every cycle-terminal failure mode — unresolvable external id,
addon-directory fetch failure, empty addon list, missing user credential
— yields a returned (never thrown; all modelled functions are total, as
is the JS control flow, whose only awaited calls inside
`checkStreamsWithUserAddons` are wrapped in try/catch or short-circuit)
verdict with `available = false`, `streamCount = 0` and a distinguishing
non-empty reason string. -/
theorem terminal_failure_verdicts (env : Env) (media : Media)
    (sel : Option (List String)) (user : Option User) (m : String) :
    (resolveImdb env media = none →
      checkStreamsWithUserAddons env media sel = failVerdict "No IMDB ID") ∧
    (resolveImdb env media ≠ none → env.addonsResult = Except.error m →
      checkStreamsWithUserAddons env media sel
        = failVerdict ("Failed to get addons: " ++ m)) ∧
    (resolveImdb env media ≠ none → env.addonsResult = Except.ok [] →
      checkStreamsWithUserAddons env media sel
        = failVerdict "No stream addons installed") ∧
    ((user = none ∨ ∃ u, user = some u ∧ jsTruthy u.stremio_auth_key = false) →
      checkStreamsAvailable user env media sel
        = failVerdict "Owner has no Stremio auth key configured") ∧
    (∀ r : String, (failVerdict r).available = false ∧ (failVerdict r).streamCount = 0) ∧
    ("No IMDB ID" ≠ "" ∧ "Failed to get addons: " ++ m ≠ "" ∧
      "No stream addons installed" ≠ "" ∧
      "Owner has no Stremio auth key configured" ≠ "") ∧
    ("No IMDB ID" ≠ "Failed to get addons: " ++ m ∧
      "No IMDB ID" ≠ "No stream addons installed" ∧
      "No IMDB ID" ≠ "Owner has no Stremio auth key configured" ∧
      "Failed to get addons: " ++ m ≠ "No stream addons installed" ∧
      "Failed to get addons: " ++ m ≠ "Owner has no Stremio auth key configured" ∧
      "No stream addons installed" ≠ "Owner has no Stremio auth key configured") := by
  have hF : ∀ x : String, ("Failed to get addons: " ++ x).data.head? = some 'F' := by
    intro x
    rw [String.data_append]
    rfl
  refine ⟨?_, ?_, ?_, ?_, ?_, ⟨?_, ?_, ?_, ?_⟩, ⟨?_, ?_, ?_, ?_, ?_, ?_⟩⟩
  · intro h
    simp [checkStreamsWithUserAddons, h]
  · intro h1 h2
    cases hres : resolveImdb env media with
    | none => exact absurd hres h1
    | some i => simp [checkStreamsWithUserAddons, hres, h2]
  · intro h1 h2
    cases hres : resolveImdb env media with
    | none => exact absurd hres h1
    | some i => simp [checkStreamsWithUserAddons, hres, h2]
  · rintro (rfl | ⟨u, rfl, hkey⟩)
    · rfl
    · simp [checkStreamsAvailable, hkey]
  · intro r
    exact ⟨rfl, rfl⟩
  · decide
  · intro h
    have h2 := hF m
    rw [h] at h2
    exact absurd h2 (by decide)
  · decide
  · decide
  · intro h
    have h2 := hF m
    rw [← h] at h2
    exact absurd h2 (by decide)
  · decide
  · decide
  · intro h
    have h2 := hF m
    rw [h] at h2
    exact absurd h2 (by decide)
  · intro h
    have h2 := hF m
    rw [h] at h2
    exact absurd h2 (by decide)
  · decide

/-- Witness for C6: a concrete environment with no resolvable id, one
with a failing addon directory, one with an empty addon list, and a user
without a credential. -/
theorem terminal_failure_verdicts_witness :
    checkStreamsWithUserAddons
        { cinemetaImdb := none, addonsResult := Except.ok [],
          fetch := fun _ => FetchResult.netError "down" }
        { type := "movie", imdb_id := none, tmdb_id := none, title := "T" }
        none
      = failVerdict "No IMDB ID" ∧
    checkStreamsWithUserAddons
        { cinemetaImdb := none, addonsResult := Except.error "boom",
          fetch := fun _ => FetchResult.netError "down" }
        { type := "movie", imdb_id := some "tt0133093", tmdb_id := none, title := "T" }
        none
      = failVerdict ("Failed to get addons: " ++ "boom") ∧
    checkStreamsWithUserAddons
        { cinemetaImdb := none, addonsResult := Except.ok [],
          fetch := fun _ => FetchResult.netError "down" }
        { type := "movie", imdb_id := some "tt0133093", tmdb_id := none, title := "T" }
        none
      = failVerdict "No stream addons installed" ∧
    checkStreamsAvailable none
        { cinemetaImdb := none, addonsResult := Except.ok [],
          fetch := fun _ => FetchResult.netError "down" }
        { type := "movie", imdb_id := some "tt0133093", tmdb_id := none, title := "T" }
        none
      = failVerdict "Owner has no Stremio auth key configured" := by
  refine ⟨?_, ?_, ?_, ?_⟩
  · exact (terminal_failure_verdicts
      { cinemetaImdb := none, addonsResult := Except.ok [],
        fetch := fun _ => FetchResult.netError "down" }
      { type := "movie", imdb_id := none, tmdb_id := none, title := "T" }
      none none "boom").1 (by decide)
  · exact (terminal_failure_verdicts
      { cinemetaImdb := none, addonsResult := Except.error "boom",
        fetch := fun _ => FetchResult.netError "down" }
      { type := "movie", imdb_id := some "tt0133093", tmdb_id := none, title := "T" }
      none none "boom").2.1 (by decide) rfl
  · exact (terminal_failure_verdicts
      { cinemetaImdb := none, addonsResult := Except.ok [],
        fetch := fun _ => FetchResult.netError "down" }
      { type := "movie", imdb_id := some "tt0133093", tmdb_id := none, title := "T" }
      none none "boom").2.2.1 (by decide) rfl
  · exact (terminal_failure_verdicts
      { cinemetaImdb := none, addonsResult := Except.ok [],
        fetch := fun _ => FetchResult.netError "down" }
      { type := "movie", imdb_id := some "tt0133093", tmdb_id := none, title := "T" }
      none none "boom").2.2.2.1 (Or.inl rfl)


/-- C7: a timeout, transport error, or non-2xx answer from one addon
only removes that addon from the aggregation — the loop's result over
`pre ++ b :: post` equals its result over `pre ++ post`, so every addon
that answered successfully still contributes — and no per-addon failure
surfaces as a top-level failure: whenever the probe reaches the addon
loop, the verdict's `reason` is `none`. -/
theorem addon_failure_isolated (env : Env) (ty i : String) (pre post : List Addon)
    (b : Addon) (media : Media) (sel : Option (List String)) (l : List Addon) :
    (isFailure (env.fetch (streamUrlOf b ty i)) = true →
      probeLoop env ty i (pre ++ b :: post) = probeLoop env ty i (pre ++ post)) ∧
    (resolveImdb env media ≠ none → env.addonsResult = Except.ok l → l ≠ [] →
      (checkStreamsWithUserAddons env media sel).reason = none) := by
  constructor
  · intro hfail
    induction pre with
    | nil =>
      simp only [List.nil_append]
      conv_lhs => rw [probeLoop]
      have hnone : addonContribution env ty i b = none := by
        unfold addonContribution
        cases hf : env.fetch (streamUrlOf b ty i) with
        | ok streams => rw [hf] at hfail; simp [isFailure] at hfail
        | httpError st => simp
        | netError msg => simp
      rw [hnone]
    | cons a pre IH =>
      simp only [List.cons_append]
      conv_lhs => rw [probeLoop]
      conv_rhs => rw [probeLoop]
      rw [IH]
  · intro h1 h2 h3
    cases hres : resolveImdb env media with
    | none => exact absurd hres h1
    | some imdbId =>
      cases l with
      | nil => exact absurd rfl h3
      | cons x xs => simp [checkStreamsWithUserAddons, hres, h2]

/-- Witness for C7: a lone timing-out addon contributes nothing, and a
probe that reaches the loop reports no reason. -/
theorem addon_failure_isolated_witness :
    probeLoop
        { cinemetaImdb := none,
          addonsResult := Except.ok
            [{ id := "a", name := "A", transportUrl := "http://a/manifest.json",
               types := ["movie"] }],
          fetch := fun _ => FetchResult.netError "timeout" }
        "movie" "tt0133093"
        ([] ++ [{ id := "a", name := "A", transportUrl := "http://a/manifest.json",
                  types := ["movie"] }] )
      = probeLoop
          { cinemetaImdb := none,
            addonsResult := Except.ok
              [{ id := "a", name := "A", transportUrl := "http://a/manifest.json",
                 types := ["movie"] }],
            fetch := fun _ => FetchResult.netError "timeout" }
          "movie" "tt0133093" ([] ++ []) ∧
    (checkStreamsWithUserAddons
        { cinemetaImdb := none,
          addonsResult := Except.ok
            [{ id := "a", name := "A", transportUrl := "http://a/manifest.json",
               types := ["movie"] }],
          fetch := fun _ => FetchResult.netError "timeout" }
        { type := "movie", imdb_id := some "tt0133093", tmdb_id := none, title := "T" }
        none).reason = none := by
  constructor
  · exact (addon_failure_isolated
      { cinemetaImdb := none,
        addonsResult := Except.ok
          [{ id := "a", name := "A", transportUrl := "http://a/manifest.json",
             types := ["movie"] }],
        fetch := fun _ => FetchResult.netError "timeout" }
      "movie" "tt0133093" []
      [] { id := "a", name := "A", transportUrl := "http://a/manifest.json",
           types := ["movie"] }
      { type := "movie", imdb_id := some "tt0133093", tmdb_id := none, title := "T" }
      none []).1 rfl
  · exact (addon_failure_isolated
      { cinemetaImdb := none,
        addonsResult := Except.ok
          [{ id := "a", name := "A", transportUrl := "http://a/manifest.json",
             types := ["movie"] }],
        fetch := fun _ => FetchResult.netError "timeout" }
      "movie" "tt0133093" [] []
      { id := "a", name := "A", transportUrl := "http://a/manifest.json",
        types := ["movie"] }
      { type := "movie", imdb_id := some "tt0133093", tmdb_id := none, title := "T" }
      none
      [{ id := "a", name := "A", transportUrl := "http://a/manifest.json",
         types := ["movie"] }]).2 (by decide) rfl (by decide)


/-- C5: the lookup key sent per addon is `externalId:1:1` for series
(regardless of the actual episode structure — the key is a constant of
the id) and the bare external id for movies; the request URL is the
transport URL with a trailing `/manifest.json` stripped when present,
followed by `/stream/<type>/<key>.json`. -/
theorem stream_url_form (a : Addon) (ty i : String) (pre : String) (media : Media) :
    (mediaTy media = "movie" ∨ mediaTy media = "series") ∧
    streamIdFor "series" i = i ++ ":1:1" ∧
    streamIdFor "movie" i = i ∧
    (a.transportUrl = pre ++ "/manifest.json" →
      streamUrlOf a ty i
        = pre ++ "/stream/" ++ ty ++ "/" ++ streamIdFor ty i ++ ".json") ∧
    ((¬ ∃ q : String, a.transportUrl = q ++ "/manifest.json") →
      streamUrlOf a ty i
        = a.transportUrl ++ "/stream/" ++ ty ++ "/" ++ streamIdFor ty i ++ ".json") := by
  refine ⟨?_, ?_, ?_, ?_, ?_⟩
  · unfold mediaTy
    by_cases h : media.type = "movie" <;> simp [h]
  · simp [streamIdFor]
  · simp [streamIdFor]
  · intro h
    unfold streamUrlOf
    rw [h, baseUrlOf_append]
  · intro h
    unfold streamUrlOf
    rw [baseUrlOf_no_suffix _ h]

/-- Witness for C5 at a concrete addon and id. -/
theorem stream_url_form_witness :
    streamUrlOf
        { id := "a", name := "A", transportUrl := "http://a/manifest.json",
          types := ["series"] }
        "series" "tt0903747"
      = "http://a" ++ "/stream/" ++ "series" ++ "/"
          ++ streamIdFor "series" "tt0903747" ++ ".json" :=
  (stream_url_form
    { id := "a", name := "A", transportUrl := "http://a/manifest.json",
      types := ["series"] }
    "series" "tt0903747" "http://a"
    { type := "series", imdb_id := some "tt0903747", tmdb_id := none,
      title := "T" }).2.2.2.1 (by decide)


/-- C1 (modelled from the spec; the filter-applying probe variant is not
under src/): with configured minimum resolution 4K, no stream whose
extracted quality tag reads 1080p passes the filters, whatever the
language tags; and a probe cycle whose only addon answers with a
non-empty list of streams all tagged 1080p yields the verdict
`available = false`, `streamCount = 0` — although the raw addon response
was non-empty. -/
theorem min4K_excludes_1080p (env : Env) (media : Media) (sel : Option (List String))
    (prefs : FilterPreferences) (a : Addon) (ss : List RawStream) (i : String)
    (ev : StreamEvidence) :
    (prefs.minResolution = some "4K" → upperStr ev.quality = "1080P" →
      passesFilters ev prefs = false) ∧
    (prefs.minResolution = some "4K" →
      resolveImdb env media = some i →
      env.addonsResult = Except.ok [a] →
      applySelection sel [a] = [a] →
      a.types.contains (mediaTy media) = true →
      env.fetch (streamUrlOf a (mediaTy media) i) = FetchResult.ok ss →
      ss ≠ [] →
      (∀ s ∈ ss, upperStr (classify s).quality = "1080P") →
      (checkStreamsWithUserAddonsFiltered env media sel prefs
          = { available := false, streamCount := 0, reason := none, addons := some [] } ∧
        0 < ss.length)) := by
  constructor
  · intro hmin hq
    exact filters_exclude_1080p_under_4K prefs hmin ev hq
  · intro hmin hres hok hselEq htypes hfetch hne hall
    refine ⟨?_, List.length_pos.mpr hne⟩
    have hcontrib : addonContributionFiltered env (mediaTy media) i prefs a = none := by
      unfold addonContributionFiltered
      rw [htypes, hfetch]
      have hkept : (ss.map classify).filter (fun ev => passesFilters ev prefs) = [] := by
        apply List.filter_eq_nil_iff.mpr
        intro x hx
        obtain ⟨s, hs, rfl⟩ := List.mem_map.mp hx
        simp [filters_exclude_1080p_under_4K prefs hmin (classify s) (hall s hs)]
      simp [hkept]
    unfold checkStreamsWithUserAddonsFiltered
    rw [hres, hok]
    simp only [List.isEmpty_cons, Bool.false_eq_true, if_false, hselEq]
    unfold probeLoopFiltered
    rw [hcontrib]
    rfl

/-- Witness for C1: one addon, two 1080p streams, minimum 4K. -/
theorem min4K_excludes_1080p_witness :
    checkStreamsWithUserAddonsFiltered
        { cinemetaImdb := none,
          addonsResult := Except.ok
            [{ id := "org.addon", name := "A",
               transportUrl := "https://ad.don/manifest.json", types := ["movie"] }],
          fetch := fun _ => FetchResult.ok
            [{ name := some "Stream A", title := none,
               description := some "Movie.1999.1080p.WEB", filename := none },
             { name := some "Stream B", title := none,
               description := some "Movie.1999.1080p.BluRay", filename := none }] }
        { type := "movie", imdb_id := some "tt0133093", tmdb_id := none,
          title := "The Matrix" }
        none
        { languageTags := [], minResolution := some "4K" }
      = { available := false, streamCount := 0, reason := none, addons := some [] } :=
  ((min4K_excludes_1080p
    { cinemetaImdb := none,
      addonsResult := Except.ok
        [{ id := "org.addon", name := "A",
           transportUrl := "https://ad.don/manifest.json", types := ["movie"] }],
      fetch := fun _ => FetchResult.ok
        [{ name := some "Stream A", title := none,
           description := some "Movie.1999.1080p.WEB", filename := none },
         { name := some "Stream B", title := none,
           description := some "Movie.1999.1080p.BluRay", filename := none }] }
    { type := "movie", imdb_id := some "tt0133093", tmdb_id := none,
      title := "The Matrix" }
    none
    { languageTags := [], minResolution := some "4K" }
    { id := "org.addon", name := "A",
      transportUrl := "https://ad.don/manifest.json", types := ["movie"] }
    [{ name := some "Stream A", title := none,
       description := some "Movie.1999.1080p.WEB", filename := none },
     { name := some "Stream B", title := none,
       description := some "Movie.1999.1080p.BluRay", filename := none }]
    "tt0133093"
    { name := "", title := "", quality := "", size := "" }).2
    rfl (by decide) rfl rfl (by decide) rfl (by decide) (by decide)).1


/-- Witness for C2 at a concrete environment (one addon, two streams). -/
theorem availability_invariant_witness :
    ((recordVerdict
        { streams_available := false, stream_count := 0, last_stream_check := none,
          streams_detail := none }
        (checkStreamsWithUserAddons
          { cinemetaImdb := none,
            addonsResult := Except.ok
              [{ id := "org.addon", name := "A",
                 transportUrl := "https://ad.don/manifest.json", types := ["movie"] }],
            fetch := fun _ => FetchResult.ok
              [{ name := some "Stream A", title := none,
                 description := some "Movie.1999.1080p.WEB", filename := none },
               { name := some "Stream B", title := none,
                 description := some "Movie.1999.1080p.BluRay", filename := none }] }
          { type := "movie", imdb_id := some "tt0133093", tmdb_id := none,
            title := "The Matrix" }
          none) "2024-01-01").streams_available = true
      ↔ 0 < (recordVerdict
        { streams_available := false, stream_count := 0, last_stream_check := none,
          streams_detail := none }
        (checkStreamsWithUserAddons
          { cinemetaImdb := none,
            addonsResult := Except.ok
              [{ id := "org.addon", name := "A",
                 transportUrl := "https://ad.don/manifest.json", types := ["movie"] }],
            fetch := fun _ => FetchResult.ok
              [{ name := some "Stream A", title := none,
                 description := some "Movie.1999.1080p.WEB", filename := none },
               { name := some "Stream B", title := none,
                 description := some "Movie.1999.1080p.BluRay", filename := none }] }
          { type := "movie", imdb_id := some "tt0133093", tmdb_id := none,
            title := "The Matrix" }
          none) "2024-01-01").stream_count) :=
  (availability_invariant
    { cinemetaImdb := none,
      addonsResult := Except.ok
        [{ id := "org.addon", name := "A",
           transportUrl := "https://ad.don/manifest.json", types := ["movie"] }],
      fetch := fun _ => FetchResult.ok
        [{ name := some "Stream A", title := none,
           description := some "Movie.1999.1080p.WEB", filename := none },
         { name := some "Stream B", title := none,
           description := some "Movie.1999.1080p.BluRay", filename := none }] }
    { type := "movie", imdb_id := some "tt0133093", tmdb_id := none,
      title := "The Matrix" }
    none
    { streams_available := false, stream_count := 0, last_stream_check := none,
      streams_detail := none }
    "2024-01-01").1

end SeerrCatalog
